import Mathlib

/-!
Verification of the vic3 repository: a linear decay tracker
(`decay_calculator.py`) and a fiscal-sustainability formula
(`debt_to_gdp.py`).  Real values are modelled as rationals, the
CSV output file as an optional list of rows (`none` = file absent),
and Python exceptions as explicit error values.
-/

/-- The CONTINUE / NEW mode enum (`ContinueNewChoices` in the source). -/
inductive ContinueNewChoices
  | C
  | N
deriving DecidableEq, Repr

/-- One row of the persisted CSV log.  `header` is the row written by
`csv.writer.writerow(["Year", "Value"])`; `data y v` is a well-formed
observation row; `malformed` is any row on which `int(row[0])` or
`float(row[1])` would raise. -/
inductive CsvRow
  | header
  | data (year : Int) (value : ℚ)
  | malformed
deriving DecidableEq, Repr

/-- Errors raised by the tracker: `domainError` for a year outside
`[start_year, end_year]`, `uninitializedModel` for `calculate_value`
called with `slope is None`, and `noneTypeError` for the (unreachable)
state where `slope` is set but `initial_value` is not. -/
inductive TrackerError
  | domainError
  | uninitializedModel
  | noneTypeError
deriving DecidableEq, Repr

/-- The recommendation printed by `add_data_point`. -/
inductive Recommendation
  | amortizeDecay
  | speedUpDecay
  | onTrack
deriving DecidableEq, Repr

/-- The state of a `DecayCalculator` object.  `output_file` models the
content of the CSV file at `self.output_file` (`none` when the file does
not exist on disk). -/
structure DecayCalculator where
  start_year : Int
  end_year : Int
  year_value_pairs : List (Int × ℚ)
  initial_value : Option ℚ
  slope : Option ℚ
  output_file : Option (List CsvRow)
deriving DecidableEq, Repr

/-- `(int(row[0]), float(row[1]))` applied to one CSV row: succeeds only
on a well-formed data row (on the header row, `int("Year")` raises). -/
def parseRow : CsvRow → Option (Int × ℚ)
  | CsvRow.data y v => some (y, v)
  | _ => none

/-- The list comprehension `[(int(row[0]), float(row[1])) for row in reader]`:
all-or-nothing, a single bad row makes the whole load fail. -/
def parseRows : List CsvRow → Option (List (Int × ℚ))
  | [] => some []
  | r :: rs =>
    match parseRow r, parseRows rs with
    | some p, some ps => some (p :: ps)
    | _, _ => none

/-- `DecayCalculator._load_existing_data`: skips the first row of the
file, parses the rest; on `FileNotFoundError` (file absent), on
`StopIteration` (empty file) or on any parse failure it leaves the
state as initialized by `__init__` (empty pairs, no model). -/
def load_existing_data (s : DecayCalculator) : DecayCalculator :=
  match s.output_file with
  | none => s
  | some [] => s
  | some (_ :: rest) =>
    match parseRows rest with
    | none => s
    | some [] => { s with year_value_pairs := [] }
    | some (p :: ps) =>
      { s with
          year_value_pairs := p :: ps,
          initial_value := some p.2,
          slope := some (-p.2 / ((s.end_year : ℚ) - (s.start_year : ℚ))) }

/-- `DecayCalculator.__init__`: fields are set, then CONTINUE loads the
existing file while NEW truncates it to just the header row.
`existing` is the content of the output file before construction. -/
def mkDecayCalculator (start_year end_year : Int) (mode : ContinueNewChoices)
    (existing : Option (List CsvRow)) : DecayCalculator :=
  let s : DecayCalculator :=
    { start_year := start_year, end_year := end_year,
      year_value_pairs := [], initial_value := none, slope := none,
      output_file := existing }
  match mode with
  | ContinueNewChoices.C => load_existing_data s
  | ContinueNewChoices.N => { s with output_file := some [CsvRow.header] }

/-- `DecayCalculator.calculate_value`: raises if `slope is None`,
otherwise returns `initial_value + slope * (year - start_year)`
(a `None` `initial_value` with a set `slope` would raise a TypeError). -/
def calculate_value (s : DecayCalculator) (year : Int) : Except TrackerError ℚ :=
  match s.slope with
  | none => Except.error TrackerError.uninitializedModel
  | some m =>
    match s.initial_value with
    | none => Except.error TrackerError.noneTypeError
    | some iv => Except.ok (iv + m * ((year : ℚ) - (s.start_year : ℚ)))

/-- The recommendation branch at the end of `add_data_point`. -/
def classify (value expected : ℚ) : Recommendation :=
  if value < expected then Recommendation.amortizeDecay
  else if value > expected then Recommendation.speedUpDecay
  else Recommendation.onTrack

/-- The state mutations of `add_data_point` once the domain check has
passed (source lines 66-78): set `initial_value` and `slope` if not
already set, append the pair in memory, append a row to the file.
Appending opens the file in mode "a", which creates it (without a
header) when it does not exist. -/
def addState (s : DecayCalculator) (year : Int) (value : ℚ) : DecayCalculator :=
  let s1 :=
    match s.initial_value with
    | none =>
      { s with
          initial_value := some value,
          slope := some (-value / ((s.end_year : ℚ) - (s.start_year : ℚ))) }
    | some _ => s
  { s1 with
      year_value_pairs := s1.year_value_pairs ++ [(year, value)],
      output_file := some (s1.output_file.getD [] ++ [CsvRow.data year value]) }

/-- `DecayCalculator.add_data_point`.  Returns the state of the object
after the call together with the outcome (the recommendation, or the
exception raised).  The domain check happens before any mutation; the
initialization branch, the in-memory append and the file append happen
before `calculate_value` is called, so on a `calculate_value` exception
the mutated state is kept (as in Python). -/
def add_data_point (s : DecayCalculator) (year : Int) (value : ℚ) :
    DecayCalculator × Except TrackerError Recommendation :=
  if s.start_year ≤ year ∧ year ≤ s.end_year then
    let s2 := addState s year value
    match calculate_value s2 year with
    | Except.error e => (s2, Except.error e)
    | Except.ok expected => (s2, Except.ok (classify value expected))
  else (s, Except.error TrackerError.domainError)

/-- One step of the interactive session loop: the exception raised by
`add_data_point` is caught by the REPL, execution continues with the
object in whatever state the call left it. -/
def applyAdd (s : DecayCalculator) (p : Int × ℚ) : DecayCalculator :=
  (add_data_point s p.1 p.2).1

/-- A session: a sequence of `add_data_point` calls from a given state. -/
def runSession (s : DecayCalculator) (inputs : List (Int × ℚ)) : DecayCalculator :=
  inputs.foldl applyAdd s

/-- The file rows encoding a list of observations, one data row each. -/
def dataRows (l : List (Int × ℚ)) : List CsvRow :=
  l.map (fun p => CsvRow.data p.1 p.2)

/-- The persisted log consists of the header row followed by data rows
that parse back to exactly the in-memory sequence. -/
def fileMatchesPairs (s : DecayCalculator) : Prop :=
  ∃ rows, s.output_file = some (CsvRow.header :: rows)
    ∧ parseRows rows = some s.year_value_pairs

/-- The model is uninitialized when the in-memory sequence is empty, and
otherwise anchored to the first in-memory observation. -/
def modelAnchored (s : DecayCalculator) : Prop :=
  match s.year_value_pairs with
  | [] => s.initial_value = none ∧ s.slope = none
  | p :: _ =>
    s.initial_value = some p.2
    ∧ s.slope = some (-p.2 / ((s.end_year : ℚ) - (s.start_year : ℚ)))

/-- Every in-memory observation's year lies in `[start_year, end_year]`. -/
def pairsInRange (s : DecayCalculator) : Prop :=
  ∀ p ∈ s.year_value_pairs, s.start_year ≤ p.1 ∧ p.1 ≤ s.end_year

/-- `initial_value` and `slope` are set together or not at all. -/
def modelConsistent (s : DecayCalculator) : Prop :=
  s.initial_value.isSome = s.slope.isSome

/-- The result type of `calculate_target_debt_to_gdp`: a number, or the
sentinel string returned on the non-sustainable condition. -/
inductive TargetDebtResult
  | sustainable (value : ℚ)
  | unsustainable (message : String)
deriving DecidableEq, Repr

/-- The sentinel string returned by `calculate_target_debt_to_gdp`. -/
def sustainability_message : String :=
  "Interest rate must be higher than GDP growth rate for sustainable debt."

/-- `calculate_target_debt_to_gdp` from `debt_to_gdp.py`: defaults the
growth rate to 0 when not provided, returns
`primary_surplus / (interest_rate - gdp_growth_rate)` when
`interest_rate > gdp_growth_rate` and the sentinel string otherwise. -/
def calculate_target_debt_to_gdp (interest_rate primary_surplus : ℚ)
    (gdp_growth_rate : Option ℚ) : TargetDebtResult :=
  let g := gdp_growth_rate.getD 0
  if interest_rate > g then
    TargetDebtResult.sustainable (primary_surplus / (interest_rate - g))
  else
    TargetDebtResult.unsustainable sustainability_message

/-- The running example of the spec: a NEW-mode tracker over
`[1836, 1936]` with the default file initially absent. -/
def exampleNew : DecayCalculator :=
  mkDecayCalculator 1836 1936 ContinueNewChoices.N none

/-- The running example after a first observation `(1836, 100)`. -/
def exampleAnchored : DecayCalculator :=
  (add_data_point exampleNew 1836 100).1

/-- A CONTINUE-mode tracker whose file was absent at construction. -/
def exampleContinueAbsent : DecayCalculator :=
  mkDecayCalculator 1836 1936 ContinueNewChoices.C none

/-! ## Helper lemmas -/

/-- `addState` leaves the configuration unchanged and appends to both
the in-memory sequence and the file. -/
theorem addState_fields (s : DecayCalculator) (year : Int) (value : ℚ) :
    (addState s year value).start_year = s.start_year
    ∧ (addState s year value).end_year = s.end_year
    ∧ (addState s year value).year_value_pairs = s.year_value_pairs ++ [(year, value)]
    ∧ (addState s year value).output_file
        = some (s.output_file.getD [] ++ [CsvRow.data year value]) := by
  unfold addState
  cases s.initial_value <;> simp

/-- On an uninitialized model, `addState` anchors the model to the new
value. -/
theorem addState_model_none (s : DecayCalculator) (year : Int) (value : ℚ)
    (h : s.initial_value = none) :
    (addState s year value).initial_value = some value
    ∧ (addState s year value).slope
        = some (-value / ((s.end_year : ℚ) - (s.start_year : ℚ))) := by
  unfold addState
  simp [h]

/-- On an initialized model, `addState` leaves the model untouched. -/
theorem addState_model_some (s : DecayCalculator) (year : Int) (value : ℚ) (x : ℚ)
    (h : s.initial_value = some x) :
    (addState s year value).initial_value = some x
    ∧ (addState s year value).slope = s.slope := by
  unfold addState
  simp [h]

/-- The post-call state of `add_data_point`: mutated iff the domain
check passes. -/
theorem add_data_point_fst (s : DecayCalculator) (year : Int) (value : ℚ) :
    (add_data_point s year value).1
      = if s.start_year ≤ year ∧ year ≤ s.end_year then addState s year value else s := by
  unfold add_data_point
  by_cases h : s.start_year ≤ year ∧ year ≤ s.end_year
  · rw [if_pos h, if_pos h]
    cases hcv : calculate_value (addState s year value) year <;> simp [hcv]
  · rw [if_neg h, if_neg h]

/-- `applyAdd` in terms of `addState`. -/
theorem applyAdd_eq (s : DecayCalculator) (p : Int × ℚ) :
    applyAdd s p
      = if s.start_year ≤ p.1 ∧ p.1 ≤ s.end_year then addState s p.1 p.2 else s := by
  unfold applyAdd
  exact add_data_point_fst s p.1 p.2

/-- Unfolding one step of a session. -/
theorem runSession_cons (s : DecayCalculator) (p : Int × ℚ) (rest : List (Int × ℚ)) :
    runSession s (p :: rest) = runSession (applyAdd s p) rest := rfl

/-- The empty session. -/
theorem runSession_nil (s : DecayCalculator) : runSession s [] = s := rfl

/-- `applyAdd` never changes the configured year range. -/
theorem applyAdd_config (s : DecayCalculator) (p : Int × ℚ) :
    (applyAdd s p).start_year = s.start_year ∧ (applyAdd s p).end_year = s.end_year := by
  rw [applyAdd_eq]
  by_cases h : s.start_year ≤ p.1 ∧ p.1 ≤ s.end_year
  · rw [if_pos h]
    exact ⟨(addState_fields s p.1 p.2).1, (addState_fields s p.1 p.2).2.1⟩
  · rw [if_neg h]
    exact ⟨rfl, rfl⟩

/-- A session never changes the configured year range. -/
theorem runSession_config (inputs : List (Int × ℚ)) :
    ∀ s : DecayCalculator,
      (runSession s inputs).start_year = s.start_year
      ∧ (runSession s inputs).end_year = s.end_year := by
  induction inputs with
  | nil => intro s; exact ⟨rfl, rfl⟩
  | cons p rest ih =>
    intro s
    rw [runSession_cons]
    rcases ih (applyAdd s p) with ⟨h1, h2⟩
    rcases applyAdd_config s p with ⟨g1, g2⟩
    exact ⟨h1.trans g1, h2.trans g2⟩

/-- Data rows parse back to exactly the pairs they encode. -/
theorem parseRows_dataRows (l : List (Int × ℚ)) : parseRows (dataRows l) = some l := by
  induction l with
  | nil => rfl
  | cons p rest ih =>
    show parseRows (CsvRow.data p.1 p.2 :: dataRows rest) = some (p :: rest)
    simp only [parseRows, parseRow, ih]

/-- Appending a data row to a well-formed block of rows appends the pair
to the parse result. -/
theorem parseRows_append_data (rows : List CsvRow) (l : List (Int × ℚ))
    (year : Int) (value : ℚ) (h : parseRows rows = some l) :
    parseRows (rows ++ [CsvRow.data year value]) = some (l ++ [(year, value)]) := by
  induction rows generalizing l with
  | nil =>
    simp [parseRows] at h
    subst h
    simp [parseRows, parseRow]
  | cons r rs ih =>
    simp only [parseRows] at h
    rcases hr : parseRow r with _ | p <;> rw [hr] at h
    · simp at h
    · rcases hrs : parseRows rs with _ | ps <;> rw [hrs] at h
      · simp at h
      · simp at h
        subst h
        have h2 := ih ps hrs
        show parseRows (r :: (rs ++ [CsvRow.data year value]))
          = some (p :: (ps ++ [(year, value)]))
        simp only [parseRows, hr, h2]

/-- `applyAdd` preserves an initialized model unchanged. -/
theorem applyAdd_model (s : DecayCalculator) (p : Int × ℚ) (x m : ℚ)
    (hiv : s.initial_value = some x) (hsl : s.slope = some m) :
    (applyAdd s p).initial_value = some x ∧ (applyAdd s p).slope = some m := by
  rw [applyAdd_eq]
  by_cases h : s.start_year ≤ p.1 ∧ p.1 ≤ s.end_year
  · rw [if_pos h]
    rcases addState_model_some s p.1 p.2 x hiv with ⟨h1, h2⟩
    exact ⟨h1, h2.trans hsl⟩
  · rw [if_neg h]
    exact ⟨hiv, hsl⟩

/-- A whole session preserves an initialized model unchanged. -/
theorem runSession_model (inputs : List (Int × ℚ)) :
    ∀ (s : DecayCalculator) (x m : ℚ), s.initial_value = some x → s.slope = some m →
      (runSession s inputs).initial_value = some x
      ∧ (runSession s inputs).slope = some m := by
  induction inputs with
  | nil => intro s x m h1 h2; exact ⟨h1, h2⟩
  | cons p rest ih =>
    intro s x m h1 h2
    rw [runSession_cons]
    rcases applyAdd_model s p x m h1 h2 with ⟨g1, g2⟩
    exact ih (applyAdd s p) x m g1 g2

/-- `applyAdd` preserves the log-matches-memory and anchored-model
invariants. -/
theorem applyAdd_good (s : DecayCalculator) (p : Int × ℚ)
    (h1 : fileMatchesPairs s) (h2 : modelAnchored s) :
    fileMatchesPairs (applyAdd s p) ∧ modelAnchored (applyAdd s p) := by
  rw [applyAdd_eq]
  by_cases h : s.start_year ≤ p.1 ∧ p.1 ≤ s.end_year
  · rw [if_pos h]
    rcases h1 with ⟨rows, hfile, hparse⟩
    rcases addState_fields s p.1 p.2 with ⟨hst, hen, hpairs, hfile2⟩
    constructor
    · refine ⟨rows ++ [CsvRow.data p.1 p.2], ?_, ?_⟩
      · rw [hfile2, hfile]
        rfl
      · rw [hpairs]
        exact parseRows_append_data rows s.year_value_pairs p.1 p.2 hparse
    · unfold modelAnchored at h2 ⊢
      rw [hpairs, hst, hen]
      rcases hyp : s.year_value_pairs with _ | ⟨q, qs⟩
      · rw [hyp] at h2
        simp only [List.nil_append]
        rcases addState_model_none s p.1 p.2 h2.1 with ⟨g1, g2⟩
        exact ⟨g1, g2⟩
      · rw [hyp] at h2
        simp only [List.cons_append]
        rcases addState_model_some s p.1 p.2 q.2 h2.1 with ⟨g1, g2⟩
        exact ⟨g1, g2.trans h2.2⟩
  · rw [if_neg h]
    exact ⟨h1, h2⟩

/-- A whole session preserves the log-matches-memory and anchored-model
invariants. -/
theorem runSession_good (inputs : List (Int × ℚ)) :
    ∀ s : DecayCalculator, fileMatchesPairs s → modelAnchored s →
      fileMatchesPairs (runSession s inputs) ∧ modelAnchored (runSession s inputs) := by
  induction inputs with
  | nil => intro s h1 h2; exact ⟨h1, h2⟩
  | cons p rest ih =>
    intro s h1 h2
    rw [runSession_cons]
    rcases applyAdd_good s p h1 h2 with ⟨g1, g2⟩
    exact ih (applyAdd s p) g1 g2

/-- `applyAdd` preserves the in-range invariant: the appended year has
just passed the domain check. -/
theorem applyAdd_range (s : DecayCalculator) (p : Int × ℚ) (h : pairsInRange s) :
    pairsInRange (applyAdd s p) := by
  rw [applyAdd_eq]
  by_cases hc : s.start_year ≤ p.1 ∧ p.1 ≤ s.end_year
  · rw [if_pos hc]
    intro q hq
    rcases addState_fields s p.1 p.2 with ⟨hst, hen, hpairs, _⟩
    rw [hst, hen]
    rw [hpairs, List.mem_append] at hq
    rcases hq with hq | hq
    · exact h q hq
    · simp at hq
      subst hq
      exact hc
  · rw [if_neg hc]
    exact h

/-- A whole session preserves the in-range invariant. -/
theorem runSession_range (inputs : List (Int × ℚ)) :
    ∀ s : DecayCalculator, pairsInRange s → pairsInRange (runSession s inputs) := by
  induction inputs with
  | nil => intro s h; exact h
  | cons p rest ih =>
    intro s h
    rw [runSession_cons]
    exact ih (applyAdd s p) (applyAdd_range s p h)

/-- `addState` always leaves the model initialized when it was
consistent before. -/
theorem addState_consistent (s : DecayCalculator) (year : Int) (value : ℚ)
    (h : modelConsistent s) :
    (addState s year value).initial_value.isSome
    ∧ (addState s year value).slope.isSome := by
  rcases hiv : s.initial_value with _ | x
  · rcases addState_model_none s year value hiv with ⟨h1, h2⟩
    rw [h1, h2]
    exact ⟨rfl, rfl⟩
  · rcases addState_model_some s year value x hiv with ⟨h1, h2⟩
    unfold modelConsistent at h
    rw [hiv] at h
    rw [h1, h2, ← h]
    exact ⟨rfl, rfl⟩

/-- The outcome of `add_data_point` when the domain check passes. -/
theorem add_data_point_snd_in (s : DecayCalculator) (year : Int) (value : ℚ)
    (h : s.start_year ≤ year ∧ year ≤ s.end_year) :
    (add_data_point s year value).2
      = match calculate_value (addState s year value) year with
        | Except.error e => Except.error e
        | Except.ok expected => Except.ok (classify value expected) := by
  unfold add_data_point
  rw [if_pos h]
  cases hcv : calculate_value (addState s year value) year <;> simp [hcv]

/-- The outcome of `add_data_point` when the domain check fails. -/
theorem add_data_point_snd_out (s : DecayCalculator) (year : Int) (value : ℚ)
    (h : ¬(s.start_year ≤ year ∧ year ≤ s.end_year)) :
    (add_data_point s year value).2 = Except.error TrackerError.domainError := by
  unfold add_data_point
  rw [if_neg h]

/-- When the model is consistent, `add_data_point` either succeeds or
fails the domain check: `calculate_value` cannot raise. -/
theorem add_data_point_consistent_error (s : DecayCalculator) (year : Int) (value : ℚ)
    (h : modelConsistent s) (e : TrackerError)
    (he : (add_data_point s year value).2 = Except.error e) :
    e = TrackerError.domainError := by
  by_cases hc : s.start_year ≤ year ∧ year ≤ s.end_year
  · rw [add_data_point_snd_in s year value hc] at he
    rcases addState_consistent s year value h with ⟨h1, h2⟩
    rcases hiv : (addState s year value).initial_value with _ | x
    · rw [hiv] at h1
      simp at h1
    rcases hsl : (addState s year value).slope with _ | m
    · rw [hsl] at h2
      simp at h2
    have hcv : calculate_value (addState s year value) year
        = Except.ok (x + m * ((year : ℚ) - ((addState s year value).start_year : ℚ))) := by
      unfold calculate_value
      rw [hsl, hiv]
    rw [hcv] at he
    simp at he
  · rw [add_data_point_snd_out s year value hc] at he
    simp at he
    exact he.symm

/-- `applyAdd` preserves model consistency. -/
theorem applyAdd_consistent (s : DecayCalculator) (p : Int × ℚ)
    (h : modelConsistent s) : modelConsistent (applyAdd s p) := by
  rw [applyAdd_eq]
  by_cases hc : s.start_year ≤ p.1 ∧ p.1 ≤ s.end_year
  · rw [if_pos hc]
    rcases addState_consistent s p.1 p.2 h with ⟨h1, h2⟩
    unfold modelConsistent
    rw [h1, h2]
  · rw [if_neg hc]
    exact h

/-- A whole session preserves model consistency. -/
theorem runSession_consistent (inputs : List (Int × ℚ)) :
    ∀ s : DecayCalculator, modelConsistent s → modelConsistent (runSession s inputs) := by
  induction inputs with
  | nil => intro s h; exact h
  | cons p rest ih =>
    intro s h
    rw [runSession_cons]
    exact ih (applyAdd s p) (applyAdd_consistent s p h)

/-- Every freshly constructed tracker has a consistent model. -/
theorem mkDecayCalculator_consistent (start_year end_year : Int)
    (mode : ContinueNewChoices) (existing : Option (List CsvRow)) :
    modelConsistent (mkDecayCalculator start_year end_year mode existing) := by
  rcases mode with _ | _
  · show modelConsistent (load_existing_data _)
    unfold load_existing_data modelConsistent
    rcases existing with _ | ⟨_ | ⟨r, rest⟩⟩ <;> simp
    rcases parseRows rest with _ | ⟨_ | ⟨p, ps⟩⟩ <;> simp
  · rfl

/-- Construction in NEW mode, fully computed. -/
theorem mkDecayCalculator_new (start_year end_year : Int) (existing : Option (List CsvRow)) :
    mkDecayCalculator start_year end_year ContinueNewChoices.N existing
      = { start_year := start_year, end_year := end_year, year_value_pairs := [],
          initial_value := none, slope := none,
          output_file := some [CsvRow.header] } := rfl

/-- `load_existing_data` never touches the file on disk, so neither does
construction in CONTINUE mode. -/
theorem mkDecayCalculator_continue_file (start_year end_year : Int)
    (existing : Option (List CsvRow)) :
    (mkDecayCalculator start_year end_year ContinueNewChoices.C existing).output_file
      = existing := by
  show (load_existing_data _).output_file = existing
  unfold load_existing_data
  rcases existing with _ | ⟨_ | ⟨r, rest⟩⟩ <;> simp
  rcases parseRows rest with _ | ⟨_ | ⟨p, ps⟩⟩ <;> simp

/-- `applyAdd` keeps the header at the front of an existing log. -/
theorem applyAdd_header (s : DecayCalculator) (p : Int × ℚ) (t : List CsvRow)
    (h : s.output_file = some (CsvRow.header :: t)) :
    ∃ u, (applyAdd s p).output_file = some (CsvRow.header :: u) := by
  rw [applyAdd_eq]
  by_cases hc : s.start_year ≤ p.1 ∧ p.1 ≤ s.end_year
  · rw [if_pos hc]
    refine ⟨t ++ [CsvRow.data p.1 p.2], ?_⟩
    rw [(addState_fields s p.1 p.2).2.2.2, h]
    rfl
  · rw [if_neg hc]
    exact ⟨t, h⟩

/-- A whole session keeps the header at the front of an existing log. -/
theorem runSession_header (inputs : List (Int × ℚ)) :
    ∀ (s : DecayCalculator) (t : List CsvRow),
      s.output_file = some (CsvRow.header :: t) →
      ∃ u, (runSession s inputs).output_file = some (CsvRow.header :: u) := by
  induction inputs with
  | nil => intro s t h; exact ⟨t, h⟩
  | cons p rest ih =>
    intro s t h
    rw [runSession_cons]
    rcases applyAdd_header s p t h with ⟨u, hu⟩
    exact ih (applyAdd s p) u hu

/-- CONTINUE-mode construction over a header followed by rows that
parse to `l`, fully computed. -/
theorem mkDecayCalculator_continue_parse (start_year end_year : Int)
    (rows : List CsvRow) (l : List (Int × ℚ)) (hp : parseRows rows = some l) :
    mkDecayCalculator start_year end_year ContinueNewChoices.C
        (some (CsvRow.header :: rows))
      = { start_year := start_year, end_year := end_year, year_value_pairs := l,
          initial_value := l.head?.map Prod.snd,
          slope := (l.head?.map Prod.snd).map
            (fun v => -v / ((end_year : ℚ) - (start_year : ℚ))),
          output_file := some (CsvRow.header :: rows) } := by
  have h0 : mkDecayCalculator start_year end_year ContinueNewChoices.C
      (some (CsvRow.header :: rows))
    = load_existing_data
      { start_year := start_year, end_year := end_year,
        year_value_pairs := [], initial_value := none, slope := none,
        output_file := some (CsvRow.header :: rows) } := rfl
  rw [h0]
  unfold load_existing_data
  simp only
  rw [hp]
  rcases l with _ | ⟨p, ps⟩ <;> simp

/-- Reconstructing from a log that matches memory, with the same
configuration, reproduces the in-memory state. -/
theorem reload_reproduces (s : DecayCalculator)
    (h1 : fileMatchesPairs s) (h2 : modelAnchored s) :
    (mkDecayCalculator s.start_year s.end_year ContinueNewChoices.C
        s.output_file).year_value_pairs = s.year_value_pairs
    ∧ (mkDecayCalculator s.start_year s.end_year ContinueNewChoices.C
        s.output_file).initial_value = s.initial_value
    ∧ (mkDecayCalculator s.start_year s.end_year ContinueNewChoices.C
        s.output_file).slope = s.slope := by
  rcases h1 with ⟨rows, hfile, hparse⟩
  rw [hfile,
    mkDecayCalculator_continue_parse s.start_year s.end_year rows s.year_value_pairs hparse]
  unfold modelAnchored at h2
  rcases hyp : s.year_value_pairs with _ | ⟨q, qs⟩ <;> rw [hyp] at h2 <;>
    simp [hyp, h2.1, h2.2]

/-- The recommendation branch compares with exact equality and no
tolerance. -/
theorem classify_spec (value expected : ℚ) :
    (classify value expected = Recommendation.amortizeDecay ↔ value < expected)
    ∧ (classify value expected = Recommendation.speedUpDecay ↔ expected < value)
    ∧ (classify value expected = Recommendation.onTrack ↔ value = expected) := by
  unfold classify
  split_ifs with h1 h2
  · exact ⟨by simp [h1], by simp [lt_asymm h1], by simp [ne_of_lt h1]⟩
  · exact ⟨by simp [h1], by simp [h2], by simp [Ne.symm (ne_of_lt h2)]⟩
  · have h3 : value = expected := le_antisymm (not_lt.mp h2) (not_lt.mp h1)
    exact ⟨by simp [h1], by simp [h2], by simp [h3]⟩

/-- A successful `add_data_point` classifies the value against the
expected value computed from the post-call model. -/
theorem add_data_point_ok_classify (s : DecayCalculator) (year : Int) (value : ℚ)
    (r : Recommendation) (hr : (add_data_point s year value).2 = Except.ok r) :
    ∃ expected, calculate_value (add_data_point s year value).1 year = Except.ok expected
      ∧ r = classify value expected := by
  by_cases hc : s.start_year ≤ year ∧ year ≤ s.end_year
  · rw [add_data_point_snd_in s year value hc] at hr
    rw [add_data_point_fst, if_pos hc]
    rcases hcv : calculate_value (addState s year value) year with e | exp
    · rw [hcv] at hr
      simp at hr
    · rw [hcv] at hr
      simp at hr
      exact ⟨exp, rfl, hr.symm⟩
  · rw [add_data_point_snd_out s year value hc] at hr
    simp at hr

/-! ## Claims -/

/-- C1: for an initialized model (`initial_value` and `slope` set, with
`slope = -initial_value / (end_year - start_year)`) and every year in
`[start_year, end_year]`, `calculate_value year` returns
`initial_value + slope * (year - start_year)`; consequently it is affine
in the year, equals `initial_value` at `start_year` and `0` at
`end_year`. -/
theorem calculate_value_affine (s : DecayCalculator) (iv : ℚ) (year : Int)
    (hiv : s.initial_value = some iv)
    (hsl : s.slope = some (-iv / ((s.end_year : ℚ) - (s.start_year : ℚ))))
    (hlt : s.start_year < s.end_year)
    (hy1 : s.start_year ≤ year) (hy2 : year ≤ s.end_year) :
    calculate_value s year
      = Except.ok (iv + (-iv / ((s.end_year : ℚ) - (s.start_year : ℚ)))
          * ((year : ℚ) - (s.start_year : ℚ)))
    ∧ calculate_value s s.start_year = Except.ok iv
    ∧ calculate_value s s.end_year = Except.ok 0 := by
  have hne : ((s.end_year : ℚ) - (s.start_year : ℚ)) ≠ 0 := by
    have hq : (s.start_year : ℚ) < (s.end_year : ℚ) := by exact_mod_cast hlt
    linarith
  have hval : ∀ y : Int, calculate_value s y
      = Except.ok (iv + (-iv / ((s.end_year : ℚ) - (s.start_year : ℚ)))
          * ((y : ℚ) - (s.start_year : ℚ))) := by
    intro y
    unfold calculate_value
    rw [hsl, hiv]
  refine ⟨hval year, ?_, ?_⟩
  · rw [hval s.start_year]
    norm_num
  · rw [hval s.end_year]
    have hz : iv + (-iv / ((s.end_year : ℚ) - (s.start_year : ℚ)))
        * ((s.end_year : ℚ) - (s.start_year : ℚ)) = 0 := by
      field_simp
    rw [hz]

/-- Witness for C1 at the running example: expected value 50 at 1886,
100 at 1836, 0 at 1936. -/
theorem calculate_value_affine_witness :
    calculate_value exampleAnchored 1886
      = Except.ok (100 + (-100 / (((1936 : Int) : ℚ) - ((1836 : Int) : ℚ)))
          * (((1886 : Int) : ℚ) - ((1836 : Int) : ℚ)))
    ∧ calculate_value exampleAnchored 1836 = Except.ok 100
    ∧ calculate_value exampleAnchored 1936 = Except.ok 0 := by
  have h := calculate_value_affine exampleAnchored 100 1886
    (by norm_num [exampleAnchored, exampleNew, mkDecayCalculator, add_data_point,
      addState, calculate_value])
    (by norm_num [exampleAnchored, exampleNew, mkDecayCalculator, add_data_point,
      addState, calculate_value])
    (by norm_num [exampleAnchored, exampleNew, mkDecayCalculator, add_data_point,
      addState, calculate_value])
    (by norm_num [exampleAnchored, exampleNew, mkDecayCalculator, add_data_point,
      addState, calculate_value])
    (by norm_num [exampleAnchored, exampleNew, mkDecayCalculator, add_data_point,
      addState, calculate_value])
  exact h

/-- C3: `add_data_point` with a year outside `[start_year, end_year]`
raises the domain error and leaves the whole state — in-memory sequence,
persisted log, model parameters — exactly as it was. -/
theorem add_data_point_domain_error (s : DecayCalculator) (year : Int) (value : ℚ)
    (h : year < s.start_year ∨ s.end_year < year) :
    add_data_point s year value = (s, Except.error TrackerError.domainError) := by
  have hc : ¬(s.start_year ≤ year ∧ year ≤ s.end_year) := by
    rcases h with h | h <;> omega
  unfold add_data_point
  rw [if_neg hc]

/-- Witness for C3: the year 2000 is rejected on the `[1836, 1936]`
example and nothing changes. -/
theorem add_data_point_domain_error_witness :
    add_data_point exampleNew 2000 1
      = (exampleNew, Except.error TrackerError.domainError) :=
  add_data_point_domain_error exampleNew 2000 1
    (Or.inr (by norm_num [exampleNew, mkDecayCalculator]))

/-- C9: `calculate_target_debt_to_gdp` returns the number
`primary_surplus / (interest_rate - gdp_growth_rate)` when
`interest_rate > gdp_growth_rate` and the sentinel string (never a
number) when `interest_rate ≤ gdp_growth_rate`; in particular
`(0.33, -3.88, 0)` gives `-3.88 / 0.33 ≈ -11.758` and
`(0.02, 1.0, 0.05)` gives the sentinel. -/
theorem calculate_target_debt_to_gdp_spec
    (interest_rate primary_surplus gdp_growth_rate : ℚ) :
    (gdp_growth_rate < interest_rate →
      calculate_target_debt_to_gdp interest_rate primary_surplus (some gdp_growth_rate)
        = TargetDebtResult.sustainable
            (primary_surplus / (interest_rate - gdp_growth_rate)))
    ∧ (interest_rate ≤ gdp_growth_rate →
      calculate_target_debt_to_gdp interest_rate primary_surplus (some gdp_growth_rate)
        = TargetDebtResult.unsustainable sustainability_message)
    ∧ calculate_target_debt_to_gdp (33/100) (-388/100) (some 0)
        = TargetDebtResult.sustainable (-388/33)
    ∧ |(-388 : ℚ)/33 - (-11758/1000)| < 1/1000
    ∧ calculate_target_debt_to_gdp (2/100) 1 (some (5/100))
        = TargetDebtResult.unsustainable sustainability_message := by
  have habs : |(-388 : ℚ)/33 - (-11758/1000)| < 1/1000 := by
    have he : (-388 : ℚ)/33 - (-11758/1000) = 7/16500 := by norm_num
    rw [he, abs_of_pos (by norm_num)]
    norm_num
  refine ⟨?_, ?_, ?_, habs, ?_⟩
  · intro h
    unfold calculate_target_debt_to_gdp
    simp only [Option.getD_some]
    rw [if_pos h]
  · intro h
    unfold calculate_target_debt_to_gdp
    simp only [Option.getD_some]
    rw [if_neg (not_lt.mpr h)]
  · norm_num [calculate_target_debt_to_gdp]
  · norm_num [calculate_target_debt_to_gdp]

/-- Witness for C9 at the spec's own numbers. -/
theorem calculate_target_debt_to_gdp_spec_witness :
    calculate_target_debt_to_gdp (33/100) (-388/100) (some 0)
      = TargetDebtResult.sustainable ((-388/100) / (33/100 - 0))
    ∧ calculate_target_debt_to_gdp (2/100) 1 (some (5/100))
      = TargetDebtResult.unsustainable sustainability_message := by
  have h := calculate_target_debt_to_gdp_spec (33/100) (-388/100) 0
  have h2 := calculate_target_debt_to_gdp_spec (2/100) 1 (5/100)
  exact ⟨h.1 (by norm_num), h2.2.1 (by norm_num)⟩

/-- C2: in any session, the first successful `add_data_point` call on an
uninitialized model — whatever its year — sets `initial_value` to that
call's value and `slope` to `-initial_value / (end_year - start_year)`;
the call succeeds, and every later call in the session leaves
`initial_value` and `slope` unchanged, so the
uninitialized-to-initialized transition is never reversed. -/
theorem add_data_point_initializes_once (s : DecayCalculator) (year : Int) (value : ℚ)
    (hiv : s.initial_value = none) (hsl : s.slope = none)
    (hy1 : s.start_year ≤ year) (hy2 : year ≤ s.end_year) :
    (add_data_point s year value).1.initial_value = some value
    ∧ (add_data_point s year value).1.slope
        = some (-value / ((s.end_year : ℚ) - (s.start_year : ℚ)))
    ∧ (∃ r, (add_data_point s year value).2 = Except.ok r)
    ∧ ∀ inputs : List (Int × ℚ),
        (runSession (add_data_point s year value).1 inputs).initial_value = some value
        ∧ (runSession (add_data_point s year value).1 inputs).slope
            = some (-value / ((s.end_year : ℚ) - (s.start_year : ℚ))) := by
  have hc : s.start_year ≤ year ∧ year ≤ s.end_year := ⟨hy1, hy2⟩
  have hfst : (add_data_point s year value).1 = addState s year value := by
    rw [add_data_point_fst, if_pos hc]
  rcases addState_model_none s year value hiv with ⟨h1, h2⟩
  have hok : ∃ r, (add_data_point s year value).2 = Except.ok r := by
    rw [add_data_point_snd_in s year value hc]
    have hcv : calculate_value (addState s year value) year
        = Except.ok (value + (-value / ((s.end_year : ℚ) - (s.start_year : ℚ)))
            * ((year : ℚ) - ((addState s year value).start_year : ℚ))) := by
      unfold calculate_value
      rw [h2, h1]
    rw [hcv]
    exact ⟨_, rfl⟩
  refine ⟨by rw [hfst]; exact h1, by rw [hfst]; exact h2, hok, ?_⟩
  intro inputs
  rw [hfst]
  exact runSession_model inputs (addState s year value) value _ h1 h2

/-- Witness for C2: the first observation `(1836, 100)` on the running
example anchors the model, and a later call `(1900, 10)` leaves it
unchanged. -/
theorem add_data_point_initializes_once_witness :
    (add_data_point exampleNew 1836 100).1.initial_value = some 100
    ∧ (runSession (add_data_point exampleNew 1836 100).1 [(1900, 10)]).initial_value
        = some 100 := by
  have h := add_data_point_initializes_once exampleNew 1836 100 rfl rfl
    (by norm_num [exampleNew, mkDecayCalculator])
    (by norm_num [exampleNew, mkDecayCalculator])
  exact ⟨h.1, (h.2.2.2 [(1900, 10)]).1⟩

/-- C4: constructing in CONTINUE mode over a log made of the header
followed by N well-formed rows loads exactly those N observations in
file order, and when N > 0 anchors the model to the first row's value
with the derived slope. -/
theorem continue_mode_reload (start_year end_year : Int) (l : List (Int × ℚ)) :
    (mkDecayCalculator start_year end_year ContinueNewChoices.C
        (some (CsvRow.header :: dataRows l))).year_value_pairs = l
    ∧ (mkDecayCalculator start_year end_year ContinueNewChoices.C
        (some (CsvRow.header :: dataRows l))).year_value_pairs.length = l.length
    ∧ ∀ p ps, l = p :: ps →
        (mkDecayCalculator start_year end_year ContinueNewChoices.C
            (some (CsvRow.header :: dataRows l))).initial_value = some p.2
        ∧ (mkDecayCalculator start_year end_year ContinueNewChoices.C
            (some (CsvRow.header :: dataRows l))).slope
            = some (-p.2 / ((end_year : ℚ) - (start_year : ℚ))) := by
  rw [mkDecayCalculator_continue_parse start_year end_year (dataRows l) l
    (parseRows_dataRows l)]
  refine ⟨rfl, rfl, ?_⟩
  intro p ps hl
  subst hl
  simp

/-- Witness for C4 with a two-row log. -/
theorem continue_mode_reload_witness :
    (mkDecayCalculator 1836 1936 ContinueNewChoices.C
        (some (CsvRow.header :: dataRows [(1850, 80), (1900, 10)]))).year_value_pairs
      = [(1850, 80), (1900, 10)]
    ∧ (mkDecayCalculator 1836 1936 ContinueNewChoices.C
        (some (CsvRow.header :: dataRows [(1850, 80), (1900, 10)]))).initial_value
      = some 80 := by
  have h := continue_mode_reload 1836 1936 [(1850, 80), (1900, 10)]
  exact ⟨h.1, (h.2.2 (1850, 80) [(1900, 10)] rfl).1⟩

/-- C10: on any tracker reachable by construction followed by a session
of `add_data_point` calls, a failing `add_data_point` can only fail with
the domain error: once the domain check passes, the initialization
branch guarantees `slope` is set before `calculate_value` runs. -/
theorem add_data_point_only_domain_error (start_year end_year : Int)
    (mode : ContinueNewChoices) (existing : Option (List CsvRow))
    (inputs : List (Int × ℚ)) (year : Int) (value : ℚ) (e : TrackerError)
    (he : (add_data_point
        (runSession (mkDecayCalculator start_year end_year mode existing) inputs)
        year value).2 = Except.error e) :
    e = TrackerError.domainError := by
  have hc := runSession_consistent inputs
    (mkDecayCalculator start_year end_year mode existing)
    (mkDecayCalculator_consistent start_year end_year mode existing)
  exact add_data_point_consistent_error _ year value hc e he

/-- Witness for C10: the only failure on the fresh example is the domain
error. -/
theorem add_data_point_only_domain_error_witness :
    (add_data_point (runSession (mkDecayCalculator 1836 1936 ContinueNewChoices.N none) [])
        2000 1).2 = Except.error TrackerError.domainError
    ∧ TrackerError.domainError = TrackerError.domainError := by
  have hcall : (add_data_point
      (runSession (mkDecayCalculator 1836 1936 ContinueNewChoices.N none) [])
      2000 1).2 = Except.error TrackerError.domainError := rfl
  exact ⟨hcall, add_data_point_only_domain_error 1836 1936 ContinueNewChoices.N none
    [] 2000 1 TrackerError.domainError hcall⟩

/-- C6: the recommendation of a successful `add_data_point` is
"amortize decay" iff `value < expected`, "speed up decay" iff
`value > expected` and "on track" iff `value = expected`, with exact
equality and no tolerance; in particular on `[1836, 1936]` the first
observation `(1836, 100)` gives slope `-1`, `(1886, 50)` then gives
expected `50` and "on track", and `(1900, 10)` gives expected `36` and
"amortize decay". -/
theorem add_data_point_classification (s : DecayCalculator) (year : Int)
    (value expected : ℚ) (r : Recommendation)
    (hr : (add_data_point s year value).2 = Except.ok r)
    (he : calculate_value (add_data_point s year value).1 year = Except.ok expected) :
    ((r = Recommendation.amortizeDecay ↔ value < expected)
      ∧ (r = Recommendation.speedUpDecay ↔ expected < value)
      ∧ (r = Recommendation.onTrack ↔ value = expected))
    ∧ exampleAnchored.slope = some (-1)
    ∧ (add_data_point exampleAnchored 1886 50).2 = Except.ok Recommendation.onTrack
    ∧ calculate_value (add_data_point exampleAnchored 1886 50).1 1886 = Except.ok 50
    ∧ (add_data_point exampleAnchored 1900 10).2 = Except.ok Recommendation.amortizeDecay
    ∧ calculate_value (add_data_point exampleAnchored 1900 10).1 1900 = Except.ok 36 := by
  constructor
  · rcases add_data_point_ok_classify s year value r hr with ⟨e0, he0, hre⟩
    have heq : e0 = expected := by
      have h2 := he0.symm.trans he
      simpa using h2
    subst heq
    subst hre
    exact classify_spec value e0
  · refine ⟨?_, ?_, ?_, ?_, ?_⟩ <;>
      norm_num [exampleAnchored, exampleNew, mkDecayCalculator, add_data_point,
        addState, calculate_value, classify]

/-- Witness for C6: the `(1900, 10)` call is classified "amortize decay"
because 10 is below the expected 36. -/
theorem add_data_point_classification_witness :
    (Recommendation.amortizeDecay = Recommendation.amortizeDecay ↔ (10 : ℚ) < 36)
    ∧ (10 : ℚ) < 36 := by
  have h := add_data_point_classification exampleAnchored 1900 10 36
    Recommendation.amortizeDecay
    (by norm_num [exampleAnchored, exampleNew, mkDecayCalculator, add_data_point,
      addState, calculate_value, classify])
    (by norm_num [exampleAnchored, exampleNew, mkDecayCalculator, add_data_point,
      addState, calculate_value, classify])
  exact ⟨h.1.1, h.1.1.mp rfl⟩

/-- C5 counterexample: a session begun in CONTINUE mode with an absent
file persists its observation into a header-less log (append mode
creates the file without writing a header); reloading that log skips its
first row as if it were the header, so neither the sequence nor the
slope is reproduced. -/
theorem round_trip_counterexample :
    (add_data_point exampleContinueAbsent 1836 100).1.year_value_pairs = [(1836, 100)]
    ∧ (add_data_point exampleContinueAbsent 1836 100).1.slope = some (-1)
    ∧ (mkDecayCalculator 1836 1936 ContinueNewChoices.C
        (add_data_point exampleContinueAbsent 1836 100).1.output_file).year_value_pairs
      = []
    ∧ (mkDecayCalculator 1836 1936 ContinueNewChoices.C
        (add_data_point exampleContinueAbsent 1836 100).1.output_file).slope = none
    ∧ ¬((mkDecayCalculator 1836 1936 ContinueNewChoices.C
        (add_data_point exampleContinueAbsent 1836 100).1.output_file).year_value_pairs
      = (add_data_point exampleContinueAbsent 1836 100).1.year_value_pairs) := by
  norm_num [exampleContinueAbsent, mkDecayCalculator, load_existing_data,
    add_data_point, addState, calculate_value, classify, parseRows, parseRow]

/-- C5 amended: the round trip does reproduce the in-memory sequence,
`initial_value` and `slope` for every session whose starting state's log
begins with the header row and parses back to its in-memory sequence
with the model anchored to the first observation — in particular for
every session constructed in NEW mode. -/
theorem round_trip_amended (s0 : DecayCalculator) (inputs : List (Int × ℚ))
    (start_year end_year : Int) (existing : Option (List CsvRow))
    (h1 : fileMatchesPairs s0) (h2 : modelAnchored s0) :
    ((mkDecayCalculator (runSession s0 inputs).start_year
        (runSession s0 inputs).end_year ContinueNewChoices.C
        (runSession s0 inputs).output_file).year_value_pairs
      = (runSession s0 inputs).year_value_pairs
    ∧ (mkDecayCalculator (runSession s0 inputs).start_year
        (runSession s0 inputs).end_year ContinueNewChoices.C
        (runSession s0 inputs).output_file).initial_value
      = (runSession s0 inputs).initial_value
    ∧ (mkDecayCalculator (runSession s0 inputs).start_year
        (runSession s0 inputs).end_year ContinueNewChoices.C
        (runSession s0 inputs).output_file).slope
      = (runSession s0 inputs).slope)
    ∧ (fileMatchesPairs (mkDecayCalculator start_year end_year ContinueNewChoices.N existing)
      ∧ modelAnchored (mkDecayCalculator start_year end_year ContinueNewChoices.N existing)) := by
  constructor
  · rcases runSession_good inputs s0 h1 h2 with ⟨g1, g2⟩
    exact reload_reproduces (runSession s0 inputs) g1 g2
  · rw [mkDecayCalculator_new]
    exact ⟨⟨[], rfl, rfl⟩, ⟨rfl, rfl⟩⟩

/-- Witness for the amended C5 on a NEW-mode session with one
observation. -/
theorem round_trip_amended_witness :
    (mkDecayCalculator (runSession exampleNew [(1836, 100)]).start_year
        (runSession exampleNew [(1836, 100)]).end_year ContinueNewChoices.C
        (runSession exampleNew [(1836, 100)]).output_file).year_value_pairs
      = (runSession exampleNew [(1836, 100)]).year_value_pairs := by
  have h := round_trip_amended exampleNew [(1836, 100)] 1836 1936 none
    ⟨[], rfl, rfl⟩ ⟨rfl, rfl⟩
  exact h.1.1

/-- C7 counterexample: after CONTINUE construction with an absent file,
the first `add_data_point` creates the log with a data row first and no
header row anywhere. -/
theorem header_counterexample :
    (runSession exampleContinueAbsent [(1850, 80)]).output_file
      = some [CsvRow.data 1850 80]
    ∧ CsvRow.data 1850 80 ≠ CsvRow.header := by
  constructor
  · norm_num [exampleContinueAbsent, mkDecayCalculator, load_existing_data,
      runSession, applyAdd, add_data_point, addState, calculate_value, classify]
  · simp

/-- C7 amended: every log whose session started with the header in place
keeps the header as its first row through any number of
`add_data_point` calls; NEW-mode construction writes exactly the header,
and CONTINUE-mode construction leaves the file as it found it — so the
invariant holds whenever the session did not start as CONTINUE over an
absent file. -/
theorem header_amended (s0 : DecayCalculator) (inputs : List (Int × ℚ))
    (t : List CsvRow) (h : s0.output_file = some (CsvRow.header :: t))
    (start_year end_year : Int) (existing : Option (List CsvRow)) :
    (∃ u, (runSession s0 inputs).output_file = some (CsvRow.header :: u))
    ∧ (mkDecayCalculator start_year end_year ContinueNewChoices.N existing).output_file
        = some [CsvRow.header]
    ∧ (mkDecayCalculator start_year end_year ContinueNewChoices.C existing).output_file
        = existing :=
  ⟨runSession_header inputs s0 t h, rfl,
    mkDecayCalculator_continue_file start_year end_year existing⟩

/-- Witness for the amended C7 on a NEW-mode session with one
observation. -/
theorem header_amended_witness :
    ∃ u, (runSession exampleNew [(1850, 80)]).output_file
      = some (CsvRow.header :: u) :=
  (header_amended exampleNew [(1850, 80)] [] rfl 1836 1936 none).1

/-- C8 counterexample: CONTINUE-mode reload performs no domain check, so
a persisted log row with year 5000 is loaded into memory even though the
range is `[1836, 1936]`. -/
theorem observation_range_counterexample :
    (mkDecayCalculator 1836 1936 ContinueNewChoices.C
        (some [CsvRow.header, CsvRow.data 5000 1])).year_value_pairs = [(5000, 1)]
    ∧ ¬((5000 : Int) ≤ (mkDecayCalculator 1836 1936 ContinueNewChoices.C
        (some [CsvRow.header, CsvRow.data 5000 1])).end_year) := by
  norm_num [mkDecayCalculator, load_existing_data, parseRows, parseRow]

/-- C8 amended: every observation that enters through `add_data_point`
satisfies `start_year ≤ year ≤ end_year`, and the all-in-range invariant
is preserved by whole sessions from any state that satisfies it — in
particular from NEW-mode construction; it can only be broken by
CONTINUE-mode reload of a log containing out-of-range rows. -/
theorem observation_range_amended (s0 : DecayCalculator) (inputs : List (Int × ℚ))
    (h : pairsInRange s0) (start_year end_year : Int)
    (existing : Option (List CsvRow)) :
    pairsInRange (runSession s0 inputs)
    ∧ pairsInRange (mkDecayCalculator start_year end_year ContinueNewChoices.N existing) := by
  refine ⟨runSession_range inputs s0 h, ?_⟩
  rw [mkDecayCalculator_new]
  intro p hp
  simp at hp

/-- Witness for the amended C8 on a NEW-mode session with one
observation. -/
theorem observation_range_amended_witness :
    pairsInRange (runSession exampleNew [(1850, 80)]) := by
  have h := observation_range_amended exampleNew [(1850, 80)]
    (by intro p hp; simp [exampleNew, mkDecayCalculator] at hp) 1836 1936 none
  exact h.1
